import Mathlib

/-!
Verification of the ComfyUI worker (`src/worker.py`).

The development shallowly embeds the worker's task-processing pipeline:

* the Execution Monitor loop of `ComfyWorker.execute_workflow`
  (websocket event classification, progress reporting, dual completion
  detection) as a step function `step` on `MonitorState` driven over a
  finite event list by `runMonitor`;
* the Result Resolver portion of `execute_workflow` (history lookup keyed
  by `prompt_id`, artifact collection, per-artifact retrieval) as
  `resolveResult`;
* `ComfyWorker.inject_prompt` over an association-list model of the JSON
  workflow document;
* `ComfyWorker.process_task` with its surrounding `try`/`except` as a
  function from a task and an oracle environment (outcomes of the fallible
  collaborators: workflow load, workflow execution, artifact save/upload,
  status sends) to the observable result: final `current_task` reference,
  the list of status reports sent, whether the generation backend was
  contacted, and whether an exception escaped the routine.

Machine integers are modelled as `Nat`; Python's
`int(value / max * 100)` on non-negative integers is floor division
`value * 100 / max`, and `max = 0` raises `ZeroDivisionError`, modelled
explicitly.
-/

namespace ComfyWorker

/-- Error values raised inside the worker: `ValueError(msg)`,
`KeyError(key)` and `ZeroDivisionError` are the exceptions the relevant
paths of `worker.py` can raise. -/
inductive Err where
  | valueError (msg : String)
  | keyError (key : String)
  | zeroDivisionError
deriving DecidableEq, Repr

/-- The message text `str(e)` that `process_task` embeds in a failed
status report. -/
def errMsg : Err → String
  | .valueError m => m
  | .keyError k => k
  | .zeroDivisionError => "division by zero"

/-- One message from the backend's streaming channel, as classified by the
`while True` loop of `execute_workflow`: text frames with `type` equal to
`executing`, `progress`, `executed` or `status`, and binary frames. -/
inductive Event where
  | executing (node : Option String) (prompt_id : String)
  | progress (value : Nat) (max : Nat)
  | executed (node : Option String)
  | status (queue_remaining : Nat)
  | binary
deriving DecidableEq, Repr

/-- The monitor's mutable loop state in `execute_workflow`:
`task_started` and `current_progress_percentage` (initially `false`
and `0`). -/
structure MonitorState where
  task_started : Bool
  current_progress_percentage : Nat
deriving DecidableEq, Repr

/-- Result of consuming one event: keep looping (possibly emitting one
progress report), `break` out of the loop (completion), or raise
`ZeroDivisionError` from the percentage computation. -/
inductive StepResult where
  | cont (s : MonitorState) (report : Option Nat)
  | done (s : MonitorState)
  | zeroDiv
deriving DecidableEq, Repr

/-- One iteration of the event loop in `execute_workflow` (lines
163-201 of `worker.py`):
an `executing` frame with a null node for this `prompt_id` breaks the
loop; a `progress` frame computes `int(value / max * 100)` (raising on
`max = 0`) and reports it only when it strictly exceeds the high-water
mark; a `status` frame with `queue_remaining = 0` sets `task_started`
on first sight and breaks the loop on second sight; `executed` frames
match no branch and binary frames are skipped. -/
def step (prompt_id : String) (s : MonitorState) : Event → StepResult
  | .executing node pid =>
      if node = none ∧ pid = prompt_id then .done s else .cont s none
  | .progress value max =>
      if max = 0 then .zeroDiv
      else
        let p := value * 100 / max
        if s.current_progress_percentage < p then
          .cont { s with current_progress_percentage := p } (some p)
        else .cont s none
  | .executed _ => .cont s none
  | .status q =>
      if q = 0 then
        if s.task_started then .done s
        else .cont { s with task_started := true } none
      else .cont s none
  | .binary => .cont s none

/-- Outcome of driving the monitor over a finite prefix of the stream:
the loop broke out (`completed`, with the events left unconsumed), the
prefix was exhausted with the loop still waiting (`pending`), or a
`ZeroDivisionError` aborted it (`zeroDiv`, with the unconsumed rest). -/
inductive RunOutcome where
  | completed (rest : List Event)
  | pending
  | zeroDiv (rest : List Event)
deriving DecidableEq, Repr

/-- Drive the `execute_workflow` event loop over a list of events,
collecting the progress percentages reported via `update_task` in
order. -/
def runMonitor (prompt_id : String) (s : MonitorState) :
    List Event → List Nat × RunOutcome
  | [] => ([], .pending)
  | e :: es =>
    match step prompt_id s e with
    | .cont s2 rep =>
        let r := runMonitor prompt_id s2 es
        (rep.toList ++ r.1, r.2)
    | .done _ => ([], .completed es)
    | .zeroDiv => ([], .zeroDiv es)

/-- The floor percentage `int(value / max * 100)` of one progress tick
(defined when `max ≠ 0`). -/
def pct (t : Nat × Nat) : Nat := t.1 * 100 / t.2

/-- A list of progress ticks as stream events. -/
def mkTicks (ts : List (Nat × Nat)) : List Event :=
  ts.map fun t => Event.progress t.1 t.2

/-- Reference reporting discipline, stated from the spec: walk the floor
percentages in order, emit one exactly when it strictly exceeds the
high-water mark, and update the mark. `runMonitor` on progress-only
streams is proved to refine this. -/
def reportsSpec (cur : Nat) : List Nat → List Nat
  | [] => []
  | p :: ps => if cur < p then p :: reportsSpec p ps else reportsSpec cur ps

/-- Events that neither complete, nor abort, nor touch `task_started`:
an `executing` frame whose node is non-null or whose `prompt_id` is
foreign, a `progress` frame with non-zero `max`, an `executed` frame,
a `status` frame with non-zero queue depth, and binary frames. -/
def neutralEvent (prompt_id : String) : Event → Bool
  | .executing node pid => !(node = none ∧ pid = prompt_id : Bool)
  | .progress _ max => max ≠ 0
  | .executed _ => true
  | .status q => q ≠ 0
  | .binary => true

/-- Lookup in a Python dict modelled as an insertion-ordered association
list: `d[k]`, `none` when the key is absent (`KeyError`). -/
def getKey {α : Type} : List (String × α) → String → Option α
  | [], _ => none
  | (k, v) :: rest, key => if k = key then some v else getKey rest key

/-- Update in a Python dict modelled as an insertion-ordered association
list: `d[k] = v` overwrites in place or appends a fresh key. -/
def setKey {α : Type} : List (String × α) → String → α → List (String × α)
  | [], key, v => [(key, v)]
  | (k, w) :: rest, key, v =>
      if k = key then (key, v) :: rest else (k, w) :: setKey rest key v

/-- The `inputs` dict of one workflow node: field name to text value. -/
abbrev Inputs := List (String × String)

/-- One workflow node as a dict; only string-to-`Inputs` entries are
relevant to `inject_prompt`. -/
abbrev Node := List (String × Inputs)

/-- The workflow JSON document: node identifier to node. -/
abbrev Workflow := List (String × Node)

/-- The fixed wrapper the worker applies to the user prompt in
`inject_prompt`. -/
def wrapPrompt (prompt : String) : String :=
  "A 3D render of " ++ prompt ++
    ", smooth lighting, no reflections, no shadows, keep the main subject center, 3d"

/-- Embedding of `ComfyWorker.inject_prompt` (line 338):
`workflow["6"]["inputs"]["text"] = f'A 3D render of ...'`. The two
subscript reads raise `KeyError` when `"6"` or `"inputs"` is absent; the
final subscript is an assignment, which creates the `"text"` key when it
does not exist. -/
def inject_prompt (workflow : Workflow) (prompt : String) : Except Err Workflow :=
  match getKey workflow "6" with
  | none => .error (.keyError "6")
  | some node =>
    match getKey node "inputs" with
    | none => .error (.keyError "inputs")
    | some inputs =>
      .ok (setKey workflow "6"
            (setKey node "inputs" (setKey inputs "text" (wrapPrompt prompt))))

/-- Read back the designated text field of a workflow document. -/
def textOf (workflow : Workflow) : Option String :=
  (getKey workflow "6").bind fun node =>
    (getKey node "inputs").bind fun inputs => getKey inputs "text"

/-- One node's entry in a history record's `outputs` dict; `images` is
the optional list of artifact filenames (`'images' in node_output`). -/
structure NodeOutput where
  images : Option (List String)
deriving DecidableEq, Repr

/-- One execution record from `GET /history`: its `outputs` dict
(`history.get('outputs', {})` makes an absent dict empty, modelled by the
empty list). -/
structure ExecRecord where
  outputs : List (String × NodeOutput)
deriving DecidableEq, Repr

/-- All artifact filenames referenced by a record, in node iteration
order, as collected by the loop at lines 212-216 of `worker.py`. -/
def collectImages (rec : ExecRecord) : List String :=
  rec.outputs.flatMap fun kv => kv.2.images.getD []

/-- Fetch each filename through `get_image` in order; an element on which
the retrieval call returns non-200 raises `ValueError` and aborts. The
returned list records, in order, every filename for which a
`GET /view?filename=...` retrieval call succeeded. -/
def fetchImages (viewOk : String → Bool) : List String → Except Err (List String)
  | [] => .ok []
  | f :: fs =>
      if viewOk f then (fetchImages viewOk fs).map (f :: ·)
      else .error (.valueError "Failed to get image")

/-- Oracle environment for one run of `execute_workflow`: the outcome of
`queue_prompt`, the event frames the websocket delivers, the error the
blocking read raises if the stream ends before completion, the outcome of
the history request, the history payload, and which retrieval calls
succeed. -/
structure ExecEnv where
  queue : Except Err String
  events : List Event
  tailErr : Err
  historyOk : Bool
  history : List (String × ExecRecord)
  viewOk : String → Bool

/-- The Result Resolver tail of `execute_workflow` (lines 203-218): a
non-200 history response raises; the history payload is indexed by
`prompt_id`, raising `KeyError` when absent; every referenced artifact is
fetched via `get_image`, one retrieval call per filename. -/
def resolveResult (env : ExecEnv) (prompt_id : String) : Except Err (List String) :=
  if env.historyOk then
    match getKey env.history prompt_id with
    | none => .error (.keyError prompt_id)
    | some rec => fetchImages env.viewOk (collectImages rec)
  else .error (.valueError "Failed to get history")

/-- Observable outcome of `execute_workflow`: whether the websocket was
closed before control left the routine, the progress percentages sent, and
the returned artifact list or the exception that propagated. -/
structure ExecOutcome where
  closed : Bool
  reports : List Nat
  result : Except Err (List String)
deriving Repr

/-- Embedding of `ComfyWorker.execute_workflow` (lines 149-222): the
websocket is opened, then the body runs inside `try`: queue the prompt,
drive the event loop, then resolve results from history; the `finally`
clause closes the websocket unconditionally, whatever the body's outcome
(`closed` is set independently of it). A stream that ends before a
completion signal leaves the loop blocked in `ws.recv()`; its abstract
outcome is the transport error `tailErr`. -/
def execute_workflow (env : ExecEnv) : ExecOutcome :=
  let body : List Nat × Except Err (List String) :=
    match env.queue with
    | .error e => ([], .error e)
    | .ok prompt_id =>
      match runMonitor prompt_id ⟨false, 0⟩ env.events with
      | (rs, .completed _) => (rs, resolveResult env prompt_id)
      | (rs, .pending) => (rs, .error env.tailErr)
      | (rs, .zeroDiv _) => (rs, .error .zeroDivisionError)
  { closed := true, reports := body.1, result := body.2 }

/-- The task's `input` dict: at minimum the `prompt` key, possibly
absent. -/
structure TaskInput where
  prompt : Option String
deriving DecidableEq, Repr

/-- A claimed task, `{id, input}`. -/
structure WTask where
  id : String
  input : TaskInput
deriving DecidableEq, Repr

/-- Python truthiness of the optional prompt:
`task.get("input", {}).get("prompt")` is falsy when the key is absent
(`None`) or the string is empty. -/
def truthy : Option String → Bool
  | none => false
  | some s => !(s == "")

/-- A task status as sent to the Task Client. -/
inductive Status where
  | processing
  | success
  | failed
deriving DecidableEq, Repr

/-- One call to `update_task` as observed by the Task Client. -/
structure Report where
  status : Status
  progress : Option Nat
  errorCode : Option Nat
  message : Option String
  output : Option String
deriving DecidableEq, Repr

/-- The failed report `process_task` sends from its `except` block:
fixed code `10001` with the exception's message. -/
def failedReport (msg : String) : Report :=
  ⟨.failed, none, some 10001, some msg, none⟩

/-- The success report carrying the uploaded artifact URL. -/
def successReport (url : String) : Report :=
  ⟨.success, none, none, none, some url⟩

/-- Whether a report carries a terminal status (`success` or `failed`,
as opposed to `processing`). -/
def isTerminal (r : Report) : Bool :=
  match r.status with
  | .processing => false
  | .success => true
  | .failed => true

/-- Number of terminal status reports in a trace. -/
def terminalCount (rs : List Report) : Nat := (rs.filter isTerminal).length

/-- Oracle environment for one run of `process_task`: the outcomes of its
fallible collaborators, in the order the routine reaches them:
`load_workflow`, `execute_workflow` (abstracted to its returned artifact
list or raised exception), `image.save`/`os.makedirs`, `upload_file`, the
success `update_task` call, `os.remove`, and the failed `update_task`
call in the `except` block. A `false`/`.error` entry means that call
raises when reached. -/
structure PEnv where
  load : Except Err Workflow
  exec : Workflow → Except Err (List String)
  saveOk : Bool
  upload : Except Err String
  successSendOk : Bool
  removeOk : Bool
  failedSendOk : Bool

/-- Observable outcome of `process_task`: the worker's `current_task`
reference when the routine returns, the status reports sent to the Task
Client in order, whether the generation backend was contacted
(`execute_workflow` reached), and whether an exception escaped the
routine into the `run` loop. -/
structure PResult where
  current_task : Option WTask
  reports : List Report
  backendCalled : Bool
  escaped : Bool
deriving DecidableEq, Repr

/-- The `except` block of `process_task` (lines 274-284): send a failed
report with code `10001` and clear `current_task`; if the send itself
raises, line 284 is never reached, so `current_task` stays set and the
exception escapes into the `run` loop. -/
def handleException (t : WTask) (env : PEnv) (e : Err) (bc : Bool) : PResult :=
  if env.failedSendOk then
    { current_task := none
      reports := [failedReport (errMsg e)]
      backendCalled := bc
      escaped := false }
  else
    { current_task := some t
      reports := []
      backendCalled := bc
      escaped := true }

/-- Embedding of `ComfyWorker.process_task` (lines 224-284): set
`current_task`, validate the prompt (raising `ValueError` before any
backend work when it is falsy), load the workflow template, inject the
prompt, execute the workflow, and — only when the returned artifact list
is non-empty — save, upload, send the success report and delete the
scratch file; then clear `current_task`. Any exception is routed to
`handleException`. When the artifact list is empty the routine returns
silently, sending no report at all. -/
def process_task (t : WTask) (env : PEnv) : PResult :=
  if truthy t.input.prompt then
    match env.load with
    | .error e => handleException t env e false
    | .ok wf =>
      match inject_prompt wf (t.input.prompt.getD "") with
      | .error e => handleException t env e false
      | .ok wf2 =>
        match env.exec wf2 with
        | .error e => handleException t env e true
        | .ok [] =>
            { current_task := none, reports := [], backendCalled := true
              escaped := false }
        | .ok (_ :: _) =>
            if env.saveOk then
              match env.upload with
              | .error e => handleException t env e true
              | .ok url =>
                if env.successSendOk then
                  if env.removeOk then
                    { current_task := none
                      reports := [successReport url]
                      backendCalled := true
                      escaped := false }
                  else
                    let r := handleException t env
                      (.valueError "remove failed") true
                    { r with reports := successReport url :: r.reports }
                else handleException t env (.valueError "update failed") true
            else handleException t env (.valueError "save failed") true
  else
    handleException t env
      (.valueError "No prompt provided in task input") false

/-- Does an event carry a null node for the given submission handle
(the explicit completion signal)? -/
def isNullExecFor (prompt_id : String) : Event → Bool
  | .executing none pid => pid == prompt_id
  | _ => false

section MonitorLemmas

/-- Unfolding of `step` on a progress tick with non-zero `max`. -/
theorem step_progress (pid : String) (s : MonitorState) (v m : Nat) (hm : m ≠ 0) :
    step pid s (.progress v m) =
      if s.current_progress_percentage < v * 100 / m then
        .cont { s with current_progress_percentage := v * 100 / m }
          (some (v * 100 / m))
      else .cont s none := by
  simp [step, hm]

/-- On progress-only streams with non-zero denominators, the monitor's
report trace is exactly `reportsSpec` over the floor percentages, and the
loop keeps waiting. -/
theorem runMonitor_progress (pid : String) (ts : List (Nat × Nat)) :
    ∀ b c, (∀ t ∈ ts, 0 < t.2) →
      runMonitor pid ⟨b, c⟩ (mkTicks ts) =
        (reportsSpec c (ts.map pct), .pending) := by
  induction ts with
  | nil => intro b c _; rfl
  | cons t ts ih =>
    intro b c h
    have hm : t.2 ≠ 0 := Nat.pos_iff_ne_zero.mp (h t (by simp))
    have hrest : ∀ u ∈ ts, 0 < u.2 := fun u hu => h u (by simp [hu])
    simp only [mkTicks, List.map_cons, runMonitor,
      step_progress pid _ t.1 t.2 hm, reportsSpec, pct]
    by_cases hc : c < t.1 * 100 / t.2
    · have := ih b (t.1 * 100 / t.2) hrest
      simp only [mkTicks] at this
      simp [hc, this]
    · have := ih b c hrest
      simp only [mkTicks] at this
      simp [hc, this]

/-- The reference reporting discipline emits a strictly increasing trace,
all of it above the initial high-water mark. -/
theorem reportsSpec_chain (ps : List Nat) :
    ∀ c, List.Chain' (· < ·) (reportsSpec c ps) ∧
      ∀ x ∈ reportsSpec c ps, c < x := by
  induction ps with
  | nil => intro c; simp [reportsSpec]
  | cons p ps ih =>
    intro c
    by_cases hc : c < p
    · obtain ⟨h1, h2⟩ := ih p
      simp only [reportsSpec, if_pos hc]
      refine ⟨List.chain'_cons'.mpr
        ⟨fun y hy => h2 y (List.mem_of_mem_head? hy), h1⟩, ?_⟩
      intro x hx
      rcases List.mem_cons.mp hx with rfl | hx
      · exact hc
      · exact hc.trans (h2 x hx)
    · obtain ⟨h1, h2⟩ := ih c
      simpa [reportsSpec, hc] using ⟨h1, h2⟩

/-- A neutral event keeps the loop running and does not touch the
`task_started` flag. -/
theorem step_neutral (pid : String) (e : Event)
    (he : neutralEvent pid e = true) (b : Bool) (c : Nat) :
    ∃ c2 rep, step pid ⟨b, c⟩ e = .cont ⟨b, c2⟩ rep := by
  cases e with
  | executing node p =>
      simp only [neutralEvent, Bool.not_eq_true'] at he
      refine ⟨c, none, ?_⟩
      simp only [step]
      rw [if_neg]
      simpa using he
  | progress v m =>
      simp only [neutralEvent, ne_eq, decide_not, Bool.not_eq_true',
        decide_eq_false_iff_not] at he
      rw [step_progress pid _ v m he]
      by_cases hc : c < v * 100 / m
      · exact ⟨v * 100 / m, some (v * 100 / m), by simp [hc]⟩
      · exact ⟨c, none, by simp [hc]⟩
  | executed node => exact ⟨c, none, rfl⟩
  | status q =>
      simp only [neutralEvent, ne_eq, decide_not, Bool.not_eq_true',
        decide_eq_false_iff_not] at he
      exact ⟨c, none, by simp [step, he]⟩
  | binary => exact ⟨c, none, rfl⟩

/-- With the `task_started` flag already set, one more queue-drain event
among neutral traffic completes the run. -/
theorem runMonitor_drain_one (pid : String) (es : List Event) :
    ∀ c, (∀ e ∈ es, neutralEvent pid e = true ∨ e = .status 0) →
      1 ≤ es.countP (· == Event.status 0) →
      ∃ rs rest, runMonitor pid ⟨true, c⟩ es = (rs, .completed rest) := by
  induction es with
  | nil => intro c _ hcount; simp at hcount
  | cons e es ih =>
    intro c hall hcount
    by_cases he : e = Event.status 0
    · subst he
      exact ⟨[], es, by simp [runMonitor, step]⟩
    · have hne : neutralEvent pid e = true := by
        rcases hall e (by simp) with h | h
        · exact h
        · exact absurd h he
      obtain ⟨c2, rep, hstep⟩ := step_neutral pid e hne true c
      have hcount2 : 1 ≤ es.countP (· == Event.status 0) := by
        have : (e :: es).countP (· == Event.status 0) =
            es.countP (· == Event.status 0) := by
          simp [List.countP_cons, he]
        omega
      obtain ⟨rs, rest, hrun⟩ := ih c2 (fun u hu => hall u (by simp [hu])) hcount2
      exact ⟨rep.toList ++ rs, rest, by simp [runMonitor, hstep, hrun]⟩

/-- From a fresh flag, two queue-drain events among neutral traffic
complete the run: the first sets `task_started`, the second breaks. -/
theorem runMonitor_drain_two (pid : String) (es : List Event) :
    ∀ c, (∀ e ∈ es, neutralEvent pid e = true ∨ e = .status 0) →
      2 ≤ es.countP (· == Event.status 0) →
      ∃ rs rest, runMonitor pid ⟨false, c⟩ es = (rs, .completed rest) := by
  induction es with
  | nil => intro c _ hcount; simp at hcount
  | cons e es ih =>
    intro c hall hcount
    by_cases he : e = Event.status 0
    · subst he
      have hcount2 : 1 ≤ es.countP (· == Event.status 0) := by
        have : (Event.status 0 :: es).countP (· == Event.status 0) =
            es.countP (· == Event.status 0) + 1 := by
          simp [List.countP_cons]
        omega
      obtain ⟨rs, rest, hrun⟩ :=
        runMonitor_drain_one pid es c (fun u hu => hall u (by simp [hu])) hcount2
      refine ⟨rs, rest, ?_⟩
      have hstep : step pid ⟨false, c⟩ (.status 0) = .cont ⟨true, c⟩ none := by
        simp [step]
      simp [runMonitor, hstep, hrun]
    · have hne : neutralEvent pid e = true := by
        rcases hall e (by simp) with h | h
        · exact h
        · exact absurd h he
      obtain ⟨c2, rep, hstep⟩ := step_neutral pid e hne false c
      have hcount2 : 2 ≤ es.countP (· == Event.status 0) := by
        have : (e :: es).countP (· == Event.status 0) =
            es.countP (· == Event.status 0) := by
          simp [List.countP_cons, he]
        omega
      obtain ⟨rs, rest, hrun⟩ := ih c2 (fun u hu => hall u (by simp [hu])) hcount2
      exact ⟨rep.toList ++ rs, rest, by simp [runMonitor, hstep, hrun]⟩

end MonitorLemmas

/-- C1: over any progress-tick stream with well-defined percentages, the
trace of progress reports emitted by the `execute_workflow` loop is
exactly the spec's discipline — each emitted report is the floor
percentage `value * 100 / max` computed at emission, and a report is
emitted precisely when that percentage strictly exceeds the high-water
mark — and the trace is strictly increasing, hence non-decreasing with no
two consecutive reports equal. (This holds for all progress streams, not
only those with non-decreasing ratios.) -/
theorem progress_reports_monotone (pid : String) (ts : List (Nat × Nat))
    (h : ∀ t ∈ ts, 0 < t.2) :
    runMonitor pid ⟨false, 0⟩ (mkTicks ts) =
      (reportsSpec 0 (ts.map pct), .pending) ∧
    List.Chain' (· < ·) (runMonitor pid ⟨false, 0⟩ (mkTicks ts)).1 := by
  have e := runMonitor_progress pid ts false 0 h
  exact ⟨e, by rw [e]; exact (reportsSpec_chain (ts.map pct) 0).1⟩

/-- Witness for C1 at the concrete non-decreasing tick sequence
`[(1,4), (2,4), (2,4), (3,4)]`. -/
theorem progress_reports_monotone_witness :
    runMonitor "p1" ⟨false, 0⟩ (mkTicks [(1,4), (2,4), (2,4), (3,4)]) =
      (reportsSpec 0 ([(1,4), (2,4), (2,4), (3,4)].map pct), .pending) ∧
    List.Chain' (· < ·)
      (runMonitor "p1" ⟨false, 0⟩ (mkTicks [(1,4), (2,4), (2,4), (3,4)])).1 :=
  progress_reports_monotone "p1" [(1,4), (2,4), (2,4), (3,4)] (by decide)

/-- C2: an `executing` event with a null node for the active submission
handle makes the monitor break out immediately — the run ends as
`completed` with every later event left unconsumed — while an `executing`
event with a null node for any other handle is ignored (the loop
continues with unchanged state and no report). -/
theorem null_node_completes (pid other : String) (s : MonitorState)
    (rest : List Event) (hne : other ≠ pid) :
    runMonitor pid s (.executing none pid :: rest) = ([], .completed rest) ∧
    step pid s (.executing none other) = .cont s none := by
  constructor
  · simp [runMonitor, step]
  · simp [step, hne]

/-- Witness for C2 with handle `"p1"`, a foreign handle `"p2"` and a
non-empty tail that is left unconsumed. -/
theorem null_node_completes_witness :
    runMonitor "p1" ⟨false, 0⟩
        [.executing none "p1", .progress 9 10, .status 0] =
      ([], .completed [.progress 9 10, .status 0]) ∧
    step "p1" ⟨false, 0⟩ (.executing none "p2") = .cont ⟨false, 0⟩ none :=
  null_node_completes "p1" "p2" ⟨false, 0⟩ [.progress 9 10, .status 0]
    (by decide)

/-- C3 counterexample: the stream
`[progress 1 0, status 0, status 0]` contains two zero-depth queue-status
events and no null-node `executing` event for the active handle `"p1"`,
yet the monitor does not reach completion: the zero-`max` progress tick
raises `ZeroDivisionError` first. -/
theorem queue_drain_counterexample :
    (∀ e ∈ ([.progress 1 0, .status 0, .status 0] : List Event),
        isNullExecFor "p1" e = false) ∧
    ([.progress 1 0, .status 0, .status 0] : List Event).countP
        (· == Event.status 0) = 2 ∧
    ∀ rest, (runMonitor "p1" ⟨false, 0⟩
        [.progress 1 0, .status 0, .status 0]).2 ≠ RunOutcome.completed rest := by
  refine ⟨by decide, by decide, fun rest h => ?_⟩
  rw [show (runMonitor "p1" ⟨false, 0⟩
        [.progress 1 0, .status 0, .status 0]).2
      = RunOutcome.zeroDiv [.status 0, .status 0] from rfl] at h
  exact RunOutcome.noConfusion h

/-- C3 amended: if every event of the stream is either neutral (completes
nothing, raises nothing, leaves `task_started` alone — in particular no
null-node `executing` event for the active handle and no zero-`max`
progress tick) or a zero-depth queue-status event, and at least two
zero-depth queue-status events occur, the monitor reaches completion;
moreover a zero-depth queue-status event seen with the flag clear sets
the flag and continues, and one seen with the flag set breaks the
loop. -/
theorem queue_drain_completes (pid : String) (es : List Event) (c : Nat)
    (hall : ∀ e ∈ es, neutralEvent pid e = true ∨ e = .status 0)
    (hcount : 2 ≤ es.countP (· == Event.status 0)) :
    (∃ rs rest, runMonitor pid ⟨false, c⟩ es = (rs, .completed rest)) ∧
    (∀ d, step pid ⟨false, d⟩ (.status 0) = .cont ⟨true, d⟩ none) ∧
    (∀ d, step pid ⟨true, d⟩ (.status 0) = .done ⟨true, d⟩) :=
  ⟨runMonitor_drain_two pid es c hall hcount,
    fun d => by simp [step], fun d => by simp [step]⟩

/-- Witness for C3 on the stream
`[status 3, status 0, progress 5 10, binary, status 0]`. -/
theorem queue_drain_completes_witness :
    (∃ rs rest, runMonitor "p1" ⟨false, 0⟩
        [.status 3, .status 0, .progress 5 10, .binary, .status 0] =
        (rs, .completed rest)) ∧
    (∀ d, step "p1" ⟨false, d⟩ (.status 0) = .cont ⟨true, d⟩ none) ∧
    (∀ d, step "p1" ⟨true, d⟩ (.status 0) = .done ⟨true, d⟩) :=
  queue_drain_completes "p1"
    [.status 3, .status 0, .progress 5 10, .binary, .status 0] 0
    (by decide) (by decide)

section DictLemmas

/-- Dict assignment followed by lookup of the same key yields the
assigned value. -/
theorem getKey_setKey {α : Type} (m : List (String × α)) (k : String) (v : α) :
    getKey (setKey m k v) k = some v := by
  induction m with
  | nil => simp [setKey, getKey]
  | cons kv rest ih =>
    obtain ⟨k1, v1⟩ := kv
    by_cases h : k1 = k
    · simp [setKey, getKey, h]
    · simp [setKey, getKey, h, ih]

/-- When every retrieval call succeeds, `fetchImages` performs one call
per filename, in order. -/
theorem fetchImages_all (viewOk : String → Bool) (fs : List String)
    (h : ∀ f ∈ fs, viewOk f = true) :
    fetchImages viewOk fs = .ok fs := by
  induction fs with
  | nil => rfl
  | cons f fs ih =>
    have hf : viewOk f = true := h f (by simp)
    have hrest := ih (fun g hg => h g (by simp [hg]))
    simp [fetchImages, hf, hrest, Except.map]

end DictLemmas

/-- Whether the run of `process_task` follows the silent path: prompt
valid, workflow loaded and parameterized, execution succeeds but returns
an empty artifact list — the one branch that returns without any status
report. -/
def execYieldsEmpty (t : WTask) (env : PEnv) : Bool :=
  if truthy t.input.prompt then
    match env.load with
    | .error _ => false
    | .ok wf =>
      match inject_prompt wf (t.input.prompt.getD "") with
      | .error _ => false
      | .ok wf2 =>
        match env.exec wf2 with
        | .ok [] => true
        | _ => false
  else false

/-- A fixed claimed task with a valid prompt. -/
def task0 : WTask := ⟨"t1", ⟨some "a red fox"⟩⟩

/-- A workflow template containing node `"6"` with an `inputs` dict and a
pre-existing `text` field. -/
def wf0 : Workflow := [("6", [("inputs", [("text", "old")])])]

/-- Environment for the C4 counterexample: workflow execution raises, and
the failed-report send in the `except` block raises too. -/
def env0 : PEnv :=
  { load := .ok wf0
    exec := fun _ => .error (.valueError "boom")
    saveOk := true
    upload := .ok "http://assets/t1.png"
    successSendOk := true
    removeOk := true
    failedSendOk := false }

/-- Clearing behaviour of the `except` block: `current_task` is cleared
unless the failed-report send itself raises. -/
theorem handleException_cleared (t : WTask) (env : PEnv) (e : Err) (bc : Bool) :
    (handleException t env e bc).current_task = none ∨
    ((handleException t env e bc).current_task = some t ∧
      (handleException t env e bc).escaped = true ∧
      env.failedSendOk = false) := by
  unfold handleException
  by_cases h : env.failedSendOk <;> simp [h]

/-- C4 counterexample: with a task whose workflow execution raises and a
Task Client whose failed-report send also raises, `process_task` returns
with `current_task` still set to the task (line 284 is skipped because
the `except` block itself raised), so the claim that every exit path
clears the reference is false. -/
theorem current_task_not_cleared :
    (process_task task0 env0).current_task = some task0 ∧
    (process_task task0 env0).escaped = true := by
  constructor <;> rfl

/-- C4 amended: on every exit path of `process_task` the `current_task`
reference is cleared, except when the failed-report send in the `except`
block itself raises — on that path the exception escapes into the worker
loop with the reference still set. -/
theorem current_task_cleared (t : WTask) (env : PEnv) :
    (process_task t env).current_task = none ∨
    ((process_task t env).current_task = some t ∧
      (process_task t env).escaped = true ∧ env.failedSendOk = false) := by
  unfold process_task
  repeat' split
  all_goals
    first
      | exact handleException_cleared ..
      | (left; rfl)

/-- Environment for the C5 counterexample: execution succeeds but the
backend's history references no artifact at all. -/
def env1 : PEnv :=
  { load := .ok wf0
    exec := fun _ => .ok []
    saveOk := true
    upload := .ok "http://assets/t1.png"
    successSendOk := true
    removeOk := true
    failedSendOk := true }

/-- C5 counterexample: when workflow execution completes with an empty
artifact list, `process_task` returns normally having sent no terminal
report at all (`if output_images:` guards the whole success branch), so
the claim that every claimed task ends with exactly one terminal report
is false. -/
theorem no_terminal_report_on_empty :
    terminalCount (process_task task0 env1).reports = 0 ∧
    (process_task task0 env1).escaped = false := by
  constructor <;> rfl

/-- C5 amended: provided the failed-report send and the post-report
scratch-file removal do not themselves raise, `process_task` sends
exactly one terminal report — success, or failed with fixed code
`10001` — unless execution succeeds with an empty artifact list, in
which case it sends none; every report it sends is terminal and is
either a success report or a failed report with code `10001`. -/
theorem one_terminal_report (t : WTask) (env : PEnv)
    (hf : env.failedSendOk = true) (hr : env.removeOk = true) :
    terminalCount (process_task t env).reports =
      (if execYieldsEmpty t env then 0 else 1) ∧
    ∀ r ∈ (process_task t env).reports,
      r.status = .success ∨ (r.status = .failed ∧ r.errorCode = some 10001) := by
  unfold process_task execYieldsEmpty
  repeat' split
  all_goals
    simp_all [handleException, terminalCount, failedReport, successReport,
      isTerminal]

/-- Witness for C5 on a run that fails during execution and reports
failure once. -/
theorem one_terminal_report_witness :
    terminalCount (process_task task0 env1).reports =
      (if execYieldsEmpty task0 env1 then 0 else 1) ∧
    ∀ r ∈ (process_task task0 env1).reports,
      r.status = .success ∨ (r.status = .failed ∧ r.errorCode = some 10001) :=
  one_terminal_report task0 env1 rfl rfl

/-- C7: when the claimed task's prompt is absent or empty, `process_task`
raises `ValueError` before `execute_workflow` is ever reached — no call
to the generation backend is made — and, provided the failed-report send
goes through, the Task Client receives exactly the one failed report with
fixed code `10001`, and the current-task reference is cleared. -/
theorem empty_prompt_fails (t : WTask) (env : PEnv)
    (hp : truthy t.input.prompt = false) (hf : env.failedSendOk = true) :
    (process_task t env).backendCalled = false ∧
    (process_task t env).reports =
      [failedReport "No prompt provided in task input"] ∧
    terminalCount (process_task t env).reports = 1 ∧
    (process_task t env).current_task = none := by
  unfold process_task handleException
  simp [hp, hf, terminalCount, failedReport, isTerminal, errMsg]

/-- Witness for C7: a task whose `input.prompt` is the empty string. -/
theorem empty_prompt_fails_witness :
    (process_task ⟨"t3", ⟨some ""⟩⟩ env1).backendCalled = false ∧
    (process_task ⟨"t3", ⟨some ""⟩⟩ env1).reports =
      [failedReport "No prompt provided in task input"] ∧
    terminalCount (process_task ⟨"t3", ⟨some ""⟩⟩ env1).reports = 1 ∧
    (process_task ⟨"t3", ⟨some ""⟩⟩ env1).current_task = none :=
  empty_prompt_fails ⟨"t3", ⟨some ""⟩⟩ env1 rfl rfl

/-- A history payload whose record for handle `"p1"` references two
artifact filenames in one output node. -/
def hist6 : List (String × ExecRecord) :=
  [("p1", ⟨[("9", ⟨some ["a.png", "b.png"]⟩)]⟩)]

/-- Environment for C6: submission succeeds with handle `"p1"`, the
stream signals completion explicitly, history holds `hist6`, and every
retrieval call succeeds. -/
def env6 : ExecEnv :=
  { queue := .ok "p1"
    events := [.executing none "p1"]
    tailErr := .valueError "connection closed"
    historyOk := true
    history := hist6
    viewOk := fun _ => true }

/-- C6 counterexample: on a history record referencing two artifacts, the
resolver issues a retrieval call for each of the two filenames (the
result list records, in order, every filename fetched through
`get_image`), not only the first; the claim that only the first
artifact's bytes are fetched is false. Only the downstream
`process_task` then uses the first of the returned artifacts. -/
theorem resolver_fetches_all :
    resolveResult env6 "p1" = .ok ["a.png", "b.png"] ∧
    (execute_workflow env6).result = .ok ["a.png", "b.png"] ∧
    collectImages ⟨[("9", ⟨some ["a.png", "b.png"]⟩)]⟩ = ["a.png", "b.png"] := by
  refine ⟨rfl, rfl, rfl⟩

/-- C6 amended: after completion the resolver looks the execution history
up keyed by the submission handle, raising `KeyError` when the handle is
absent; when it is present it collects every referenced artifact filename
across all output-bearing nodes and issues one retrieval call per
collected filename (fetching each artifact's bytes, the first of which is
the one later saved and uploaded). -/
theorem resolver_spec (env : ExecEnv) (pid : String)
    (hh : env.historyOk = true) :
    (getKey env.history pid = none →
      resolveResult env pid = .error (.keyError pid)) ∧
    (∀ rec, getKey env.history pid = some rec →
      (∀ f ∈ collectImages rec, env.viewOk f = true) →
      resolveResult env pid = .ok (collectImages rec)) := by
  constructor
  · intro h
    unfold resolveResult
    rw [hh, if_pos rfl, h]
  · intro rec h hall
    unfold resolveResult
    rw [hh, if_pos rfl, h]
    exact fetchImages_all env.viewOk (collectImages rec) hall

/-- Witness for C6 at the concrete environment `env6`. -/
theorem resolver_spec_witness :
    resolveResult env6 "p1" =
      .ok (collectImages ⟨[("9", ⟨some ["a.png", "b.png"]⟩)]⟩) :=
  (resolver_spec env6 "p1" rfl).2 ⟨[("9", ⟨some ["a.png", "b.png"]⟩)]⟩
    rfl (by decide)

/-- A workflow whose node `"6"` has an `inputs` dict but no `text`
field. -/
def wfNoText : Workflow := [("6", [("inputs", [("seed", "42")])])]

/-- C8 counterexample: on a workflow whose designated `text` field is
absent (though node `"6"` and its `inputs` dict exist), `inject_prompt`
does not fail — the Python subscript assignment creates the missing key —
so the claim that parameterization fails whenever the designated node or
field is absent is false. -/
theorem inject_creates_missing_text :
    textOf wfNoText = none ∧
    inject_prompt wfNoText "x" =
      .ok [("6", [("inputs", [("seed", "42"), ("text", wrapPrompt "x")])])] := by
  constructor <;> rfl

/-- C8 amended: parameterizing a workflow that has node `"6"` with an
`inputs` dict succeeds and leaves the designated text field equal to the
fixed wrapper applied to the prompt; parameterization raises `KeyError`
exactly when node `"6"` or its `inputs` dict is absent — an absent
`text` key alone does not make it fail, the assignment creates it. -/
theorem inject_prompt_roundtrip (wf : Workflow) (P : String) (node : Node)
    (inputs : Inputs) (h6 : getKey wf "6" = some node)
    (hi : getKey node "inputs" = some inputs) :
    (∃ wf2, inject_prompt wf P = .ok wf2 ∧ textOf wf2 = some (wrapPrompt P)) ∧
    (∀ wfa, getKey wfa "6" = none →
      inject_prompt wfa P = .error (.keyError "6")) ∧
    (∀ wfa nodea, getKey wfa "6" = some nodea →
      getKey nodea "inputs" = none →
      inject_prompt wfa P = .error (.keyError "inputs")) := by
  refine ⟨⟨setKey wf "6" (setKey node "inputs"
      (setKey inputs "text" (wrapPrompt P))), ?_, ?_⟩, ?_, ?_⟩
  · simp [inject_prompt, h6, hi]
  · unfold textOf
    simp [getKey_setKey]
  · intro wfa h
    simp [inject_prompt, h]
  · intro wfa nodea h hn
    simp [inject_prompt, h, hn]

/-- Witness for C8 at the template `wf0` and prompt `"a red fox"`. -/
theorem inject_prompt_roundtrip_witness :
    (∃ wf2, inject_prompt wf0 "a red fox" = .ok wf2 ∧
      textOf wf2 = some (wrapPrompt "a red fox")) ∧
    (∀ wfa, getKey wfa "6" = none →
      inject_prompt wfa "a red fox" = .error (.keyError "6")) ∧
    (∀ wfa nodea, getKey wfa "6" = some nodea →
      getKey nodea "inputs" = none →
      inject_prompt wfa "a red fox" = .error (.keyError "inputs")) :=
  inject_prompt_roundtrip wf0 "a red fox" [("inputs", [("text", "old")])]
    [("text", "old")] rfl rfl

/-- C9: whatever the oracle environment — submission failure, explicit or
fallback completion, stream exhaustion, `ZeroDivisionError`, resolver
failure — `execute_workflow` closes the websocket before control leaves
the routine: the `finally` clause runs on every exit path after the
channel was opened, which the embedding reflects by setting `closed`
independently of the body's outcome. -/
theorem websocket_always_closed (env : ExecEnv) :
    (execute_workflow env).closed = true := rfl

/-- Environment for C10: the stream delivers a progress tick with
`max = 0` right after submission succeeds. -/
def env10 : ExecEnv :=
  { queue := .ok "p1"
    events := [.progress 7 0]
    tailErr := .valueError "connection closed"
    historyOk := true
    history := hist6
    viewOk := fun _ => true }

/-- Task-processing environment for C10 wiring the real
`execute_workflow` outcome on `env10` in as the execution stage. -/
def env10p : PEnv :=
  { load := .ok wf0
    exec := fun _ => (execute_workflow env10).result
    saveOk := true
    upload := .ok "http://assets/t2.png"
    successSendOk := true
    removeOk := true
    failedSendOk := true }

/-- A fixed claimed task for the C10 run. -/
def task10 : WTask := ⟨"t2", ⟨some "a cat"⟩⟩

/-- C10: a progress tick with `max = 0` makes the percentage computation
raise `ZeroDivisionError` instead of emitting a report; the error aborts
the event loop (no report is emitted, the run's result is the error), and
when the surrounding `process_task` runs with that execution outcome the
task is reported failed with code `10001` and message
`"division by zero"`. -/
theorem zero_max_aborts :
    step "p1" ⟨false, 0⟩ (.progress 7 0) = .zeroDiv ∧
    (execute_workflow env10).reports = [] ∧
    (execute_workflow env10).result = .error .zeroDivisionError ∧
    (process_task task10 env10p).reports =
      [failedReport "division by zero"] ∧
    (process_task task10 env10p).current_task = none := by
  refine ⟨rfl, rfl, rfl, rfl, rfl⟩

end ComfyWorker
